import Mathlib

set_option autoImplicit false

namespace GeminiCoder

/-!
Shallow embedding of the tool subsystem of the `gemini-coder` repository
(`src/tools/base.py`, `file_tools.py`, `project_tools.py`, `search_tools.py`,
`shell_tools.py`, `git_tools.py`) and of the legacy action dispatcher
(`src/gemini_coder.py`).  Python strings are modelled as Lean `String`
(lists of characters); the filesystem is an explicit state value threaded
through every tool; subprocess execution is an oracle function passed as a
parameter, together with an explicit trace of the commands that were
spawned.  Fallible operations return `Except` or a failing `ToolResult`,
mirroring the `try`/`except` structure of the source.
-/

/-! ## Python string primitives -/

/-- Byte-wise prefix test on character lists (helper for the substring test). -/
def isPrefixL : List Char → List Char → Bool
  | [], _ => true
  | _ :: _, [] => false
  | a :: xs, b :: ys => a == b && isPrefixL xs ys

/-- Python substring membership `needle in hay` on character lists:
`needle` occurs contiguously in `hay` (the empty needle occurs everywhere). -/
def occursInL (needle : List Char) : List Char → Bool
  | [] => needle.isEmpty
  | c :: rest => isPrefixL needle (c :: rest) || occursInL needle rest

/-- Python `sub in s` substring test, lifted to `String`. -/
def strContains (s sub : String) : Bool :=
  occursInL sub.data s.data

/-- Python `s.replace("", new)`: a copy of `new` is inserted at every gap,
including both ends. -/
def pyReplaceEmpty (new : List Char) : List Char → List Char
  | [] => new
  | c :: rest => new ++ c :: pyReplaceEmpty new rest

/-- Scanner for Python `s.replace(old, new)` with nonempty `old`: leftmost,
non-overlapping occurrences, scanned left to right.  `fuel` bounds the
recursion; callers pass `s.length`, which always suffices because every
step consumes at least one character. -/
def pyReplaceAux (old new : List Char) : Nat → List Char → List Char
  | 0, s => s
  | _ + 1, [] => []
  | fuel + 1, c :: rest =>
    if isPrefixL old (c :: rest) then
      new ++ pyReplaceAux old new fuel (List.drop (old.length - 1) rest)
    else
      c :: pyReplaceAux old new fuel rest

/-- Python `s.replace(old, new)`: replaces every leftmost non-overlapping
occurrence of `old` in `s` by `new`. -/
def pyReplace (old new s : List Char) : List Char :=
  if old.isEmpty then pyReplaceEmpty new s else pyReplaceAux old new s.length s

/-- Scanner for Python `s.count(old)` with nonempty `old`: counts leftmost
non-overlapping occurrences.  Same fuel discipline as `pyReplaceAux`. -/
def pyCountAux (old : List Char) : Nat → List Char → Nat
  | 0, _ => 0
  | _ + 1, [] => 0
  | fuel + 1, c :: rest =>
    if isPrefixL old (c :: rest) then
      1 + pyCountAux old fuel (List.drop (old.length - 1) rest)
    else
      pyCountAux old fuel rest

/-- Python `s.count(old)`: number of non-overlapping occurrences
(`s.count("") = len(s) + 1`). -/
def pyCount (old s : List Char) : Nat :=
  if old.isEmpty then s.length + 1 else pyCountAux old s.length s

/-- Python `s.replace(old, new)` on `String`. -/
def strReplace (s old new : String) : String :=
  ⟨pyReplace old.data new.data s.data⟩

/-- Python `s.count(old)` on `String`. -/
def strCount (s old : String) : Nat :=
  pyCount old.data s.data

/-- Python `s.lower()` restricted to the characters the dispatcher compares. -/
def pyLower (s : String) : String :=
  ⟨s.data.map Char.toLower⟩

/-- `os.path.dirname` (posix): everything up to the last path separator,
with trailing separators stripped from the head unless the head consists
only of separators; the empty string when there is no separator. -/
def dirnameL (p : List Char) : List Char :=
  let head := (p.reverse.dropWhile (fun c => c != '/')).reverse
  if head.isEmpty || head.all (fun c => c == '/') then head
  else (head.reverse.dropWhile (fun c => c == '/')).reverse

/-- `os.path.dirname` on `String`. -/
def dirnameStr (p : String) : String :=
  ⟨dirnameL p.data⟩

/-- `os.path.join path ".git"` for the git tools: appends a separator
unless one is already present (or the path is empty). -/
def joinGit (path : String) : String :=
  if path = "" then ".git"
  else match path.data.getLast? with
    | some '/' => path ++ ".git"
    | _ => path ++ "/.git"

/-! ## Filesystem state -/

/-- Filesystem state: an association list of regular files (path to text
content) plus the set of directories, both keyed by path strings. -/
structure FS where
  files : List (String × String)
  dirs : List String
deriving DecidableEq

/-- `True` when a regular file exists at `p`. -/
def FS.isFile (fs : FS) (p : String) : Bool :=
  fs.files.any (fun e => e.1 == p)

/-- `True` when a directory exists at `p`. -/
def FS.isDir (fs : FS) (p : String) : Bool :=
  fs.dirs.contains p

/-- `os.path.exists`: true for files and directories alike. -/
def FS.pathExists (fs : FS) (p : String) : Bool :=
  fs.isFile p || fs.isDir p

/-- Content of the regular file at `p`, if one exists. -/
def FS.readFile (fs : FS) (p : String) : Option String :=
  (fs.files.find? (fun e => e.1 == p)).map (fun e => e.2)

/-- `open(p, "w").write(content)`: overwrite the file at `p` (or create it
when none exists).  The association list keeps one entry per path: the
entry for `p` is replaced and every other entry kept. -/
def FS.setFile (fs : FS) (p content : String) : FS :=
  { fs with files := (p, content) :: fs.files.filter (fun e => !(e.1 == p)) }

/-- Split a character list at every occurrence of `sep` (the semantics of
python `s.split(sep)` for a one-character separator: the empty string
yields `[""]`). -/
def splitCharAux (sep : Char) : List Char → List Char → List (List Char)
  | [], acc => [acc.reverse]
  | c :: rest, acc =>
    if c == sep then acc.reverse :: splitCharAux sep rest []
    else splitCharAux sep rest (c :: acc)

/-- Python `s.split(sep)` for a one-character separator, on `String`. -/
def splitChar (sep : Char) (s : String) : List String :=
  (splitCharAux sep s.data []).map (fun l => ⟨l⟩)

/-- Cumulative slash-separated prefixes of a path: the chain of directories
`os.makedirs` creates, e.g. `"a/b/c"` yields `["a", "a/b", "a/b/c"]`. -/
def pathPrefixes (name : String) : List String :=
  ((splitChar '/' name).foldl
    (fun (acc : List String × String) seg =>
      let q := if acc.2 = "" then seg else acc.2 ++ "/" ++ seg
      (acc.1 ++ [q], q))
    ([], "")).1

/-- One `mkdir` of the `os.makedirs` chain, with `exist_ok=True`: a path
already present as a directory is skipped, a path present as a regular
file raises `FileExistsError` (the `exist_ok` escape only suppresses the
error when the path is a directory), and otherwise the directory is
created. -/
def mkdirStep (acc : FS) (q : String) : Except String FS :=
  if acc.isFile q then Except.error ("File exists: " ++ q)
  else if acc.isDir q then Except.ok acc
  else Except.ok { acc with dirs := acc.dirs ++ [q] }

/-- Semantics of the python stdlib call `os.makedirs(name, exist_ok=True)`
for the slash-separated paths the tools pass: `os.makedirs("")` raises
`FileNotFoundError` (it ends in `mkdir("")`), and otherwise each missing
ancestor directory is created in order via `mkdirStep`. -/
def makedirs (fs : FS) (name : String) : Except String FS :=
  if name = "" then
    Except.error "No such file or directory: empty path"
  else
    (pathPrefixes name).foldlM mkdirStep fs

/-! ## ToolResult and the registry (`src/tools/base.py`) -/

/-- Python values, as far as the tool results use them: the `content` and
`metadata` fields of `ToolResult` are dynamically typed in the source. -/
inductive PyVal where
  | pyNone
  | pyBool (b : Bool)
  | pyInt (n : Int)
  | pyStr (s : String)
  | pyList (xs : List PyVal)
  | pyDict (kvs : List (String × PyVal))

/-- Project `PyVal` to an integer, when it is one. -/
def PyVal.asInt : PyVal → Option Int
  | PyVal.pyInt n => some n
  | _ => Option.none

/-- Project `PyVal` to a string, when it is one. -/
def PyVal.asStr : PyVal → Option String
  | PyVal.pyStr s => some s
  | _ => Option.none

/-- Length of a `PyVal` list, when it is one. -/
def PyVal.listLength : PyVal → Option Nat
  | PyVal.pyList xs => some xs.length
  | _ => Option.none

/-- The `ToolResult` dataclass of `src/tools/base.py`: `success`, a
dynamically typed `content`, an optional `error` (default `None`), and an
optional `metadata` mapping (default `None`). -/
structure ToolResult where
  success : Bool
  content : PyVal
  error : Option String := Option.none
  metadata : Option (List (String × PyVal)) := Option.none

/-- Look up an entry of the result's metadata mapping. -/
def ToolResult.metaVal (r : ToolResult) (k : String) : Option PyVal :=
  r.metadata.bind (fun m => (m.find? (fun e => e.1 == k)).map (fun e => e.2))

/-- Metadata entry as an integer. -/
def ToolResult.metaInt (r : ToolResult) (k : String) : Option Int :=
  (r.metaVal k).bind PyVal.asInt

/-- A failing `ToolResult` with `content=None` and the given error message,
the shape every `except` branch of the tools produces. -/
def ToolResult.fail (msg : String) : ToolResult :=
  { success := false, content := PyVal.pyNone, error := some msg }

/-- A registered tool over state type `σ`: a name plus an `execute`
function.  `execute` returns `Except.error` when the python method raises
(the state component records any side effects performed before the raise),
and `Except.ok` when it returns a `ToolResult` normally. -/
structure Tool (σ : Type) where
  name : String
  execute : List (String × PyVal) → σ → Except String ToolResult × σ

/-- `ToolRegistry.get_tool`: dictionary lookup by name (registration keys
the dict by `tool.name`, so the first association with the name is the
entry). -/
def registryFind {σ : Type} (reg : List (Tool σ)) (name : String) : Option (Tool σ) :=
  reg.find? (fun t => t.name == name)

/-- `ToolRegistry.register`: `self._tools[tool.name] = tool`, overwriting
any previous entry under the same name. -/
def registryAdd {σ : Type} (reg : List (Tool σ)) (t : Tool σ) : List (Tool σ) :=
  if (registryFind reg t.name).isSome then
    reg.map (fun u => if u.name == t.name then t else u)
  else
    reg ++ [t]

/-- `ToolRegistry.execute_tool` (`src/tools/base.py` lines 77-94): resolve
the name; an unknown name yields a failing result naming the tool and
touches no state; a raise from the tool's `execute` is caught and wrapped
into a failing result. -/
def executeTool {σ : Type} (reg : List (Tool σ)) (name : String)
    (kwargs : List (String × PyVal)) (s : σ) : ToolResult × σ :=
  match registryFind reg name with
  | Option.none =>
    (ToolResult.fail ("Ferramenta " ++ name ++ " nao encontrada"), s)
  | some t =>
    match t.execute kwargs s with
    | (Except.ok r, s2) => (r, s2)
    | (Except.error e, s2) =>
      (ToolResult.fail ("Erro ao executar ferramenta " ++ name ++ ": " ++ e), s2)

/-! ## File tools (`src/tools/file_tools.py`) -/

/-- `ReadTool.execute`: fails when the path does not exist; reading a
directory raises `IsADirectoryError`, caught by the tool's own handler;
otherwise returns the content with path and size metadata. -/
def readExecute (fs : FS) (file_path : String) : ToolResult :=
  if !(fs.pathExists file_path) then
    ToolResult.fail ("Arquivo " ++ file_path ++ " nao encontrado")
  else
    match fs.readFile file_path with
    | Option.none => ToolResult.fail "Erro ao ler arquivo: e um diretorio"
    | some content =>
      { success := true
        content := PyVal.pyStr content
        metadata := some [("file_path", PyVal.pyStr file_path),
                          ("size", PyVal.pyInt (content.length : Int))] }

/-- `WriteTool.execute` (`file_tools.py` lines 88-106): first
`os.makedirs(os.path.dirname(file_path), exist_ok=True)` — which raises
when the dirname is empty or an ancestor is a regular file — then opens the
file for writing (raising when the path is a directory) and overwrites it
unconditionally.  Raises are caught by the tool's handler, which returns a
failing result; side effects performed before the raise persist. -/
def writeExecute (fs : FS) (file_path content : String) : ToolResult × FS :=
  match makedirs fs (dirnameStr file_path) with
  | Except.error e => (ToolResult.fail ("Erro ao escrever arquivo: " ++ e), fs)
  | Except.ok fs1 =>
    if fs1.isDir file_path then
      (ToolResult.fail "Erro ao escrever arquivo: e um diretorio", fs1)
    else
      ({ success := true
         content := PyVal.pyStr ("Arquivo " ++ file_path ++ " criado/atualizado com sucesso")
         metadata := some [("file_path", PyVal.pyStr file_path),
                           ("size", PyVal.pyInt (content.length : Int))] },
       fs1.setFile file_path content)

/-- `EditTool.execute` (`file_tools.py` lines 141-178): fails when the path
does not exist or `old_text` is not a substring of the content; otherwise
writes `content.replace(old_text, new_text)` back and reports
`content.count(old_text)` — the count taken on the original content — as
the `replacements` metadata. -/
def editExecute (fs : FS) (file_path old_text new_text : String) : ToolResult × FS :=
  if !(fs.pathExists file_path) then
    (ToolResult.fail ("Arquivo " ++ file_path ++ " nao encontrado"), fs)
  else
    match fs.readFile file_path with
    | Option.none => (ToolResult.fail "Erro ao editar arquivo: e um diretorio", fs)
    | some content =>
      if !(strContains content old_text) then
        (ToolResult.fail ("Texto " ++ old_text ++ " nao encontrado no arquivo"), fs)
      else
        ({ success := true
           content := PyVal.pyStr ("Arquivo " ++ file_path ++ " editado com sucesso")
           metadata := some [("file_path", PyVal.pyStr file_path),
                             ("replacements", PyVal.pyInt (strCount content old_text : Int))] },
         fs.setFile file_path (strReplace content old_text new_text))

/-! ## Compound tools (`src/tools/project_tools.py`) -/

/-- One entry of the `edits` argument of `multi_edit`. -/
structure EditItem where
  file_path : String
  old_text : String
  new_text : String

/-- One iteration of the `multi_edit` loop body (`project_tools.py` lines
49-78): missing file, text-not-found and raised exceptions each append a
log line and leave the state unchanged; a successful edit writes the
replaced content back.  Returns the new state, the log line, and whether
the item counted as a successful edit. -/
def multiEditOne (fs : FS) (e : EditItem) : FS × String × Bool :=
  if !(fs.pathExists e.file_path) then
    (fs, "Arquivo " ++ e.file_path ++ " nao encontrado", false)
  else
    match fs.readFile e.file_path with
    | Option.none => (fs, "Erro em " ++ e.file_path ++ ": e um diretorio", false)
    | some content =>
      if !(strContains content e.old_text) then
        (fs, "Texto nao encontrado em " ++ e.file_path, false)
      else
        (fs.setFile e.file_path (strReplace content e.old_text e.new_text),
         e.file_path ++ " editado", true)

/-- The success flag of each `multi_edit` item in order, with the state
threaded through the loop exactly as the source does. -/
def multiEditOutcomes : FS → List EditItem → List Bool
  | _, [] => []
  | fs, e :: rest =>
    let r := multiEditOne fs e
    r.2.2 :: multiEditOutcomes r.1 rest

/-- Final state of the `multi_edit` loop, defined by direct recursion. -/
def multiEditFinalFS : FS → List EditItem → FS
  | fs, [] => fs
  | fs, e :: rest => multiEditFinalFS (multiEditOne fs e).1 rest

/-- Accumulator update of the `multi_edit` loop (`project_tools.py` lines
45-88): threads the state, appends the item's log line, and counts the
item when it succeeded. -/
def multiEditStep (acc : FS × List String × Nat) (e : EditItem) : FS × List String × Nat :=
  let r := multiEditOne acc.1 e
  (r.1, acc.2.1 ++ [r.2.1], acc.2.2 + (if r.2.2 then 1 else 0))

/-- `MultiEditTool.execute`, assembled from the loop fold: the joined log
as content, `success = len(successful_edits) > 0`, *no* `error` field, and
metadata recording `total_edits` and `successful_edits`. -/
def multiEditExecute (fs : FS) (edits : List EditItem) : ToolResult × FS :=
  let final := edits.foldl multiEditStep (fs, [], 0)
  ({ success := decide (0 < final.2.2)
     content := PyVal.pyStr (String.intercalate "\n" final.2.1)
     error := Option.none
     metadata := some [("total_edits", PyVal.pyInt (edits.length : Int)),
                       ("successful_edits", PyVal.pyInt (final.2.2 : Int))] },
   final.1)

/-- One entry of the `operations` argument of `refactor`; `old_name` and
`new_name` are optional because the schema only requires `type` and
`file_path`. -/
structure RefactorOp where
  opType : String
  file_path : String
  old_name : Option String
  new_name : Option String

/-- `RefactorTool._rename_in_file` (`project_tools.py` lines 241-274),
parametrized by `core`, the regex-substitution block of lines 249-263:
`core content old new` returns the rewritten content and the total number
of pattern matches.  Every theorem below holds for every such `core`, in
particular for the one CPython's `re` module implements.  A raised
exception (missing file / directory) is caught inside and reported as an
error string; zero matches yields a not-found string and no write;
otherwise the rewritten content is written back. -/
def renameInFile (core : String → String → String → String × Nat) (fs : FS)
    (file_path old_name new_name : String) : FS × String :=
  match fs.readFile file_path with
  | Option.none => (fs, file_path ++ ": Erro - arquivo inacessivel")
  | some content =>
    let r := core content old_name new_name
    if 0 < r.2 then
      (fs.setFile file_path r.1,
       file_path ++ ": " ++ old_name ++ " -> " ++ new_name ++
         " (" ++ toString r.2 ++ " alteracoes)")
    else
      (fs, file_path ++ ": " ++ old_name ++ " nao encontrado")

/-- One iteration of the `refactor` loop body (`project_tools.py` lines
211-230).  The source counts an operation as successful with
`if "" in result:` — membership of the *empty string* in the log line,
which python evaluates to `True` for every string — modelled literally by
`strContains msg ""`.  Returns new state, log line, and the increment of
`successful_ops`. -/
def refactorOne (core : String → String → String → String × Nat) (fs : FS)
    (op : RefactorOp) : FS × String × Nat :=
  match op.opType == "rename", op.old_name, op.new_name with
  | true, some old, some new =>
    let r := renameInFile core fs op.file_path old new
    (r.1, r.2, if strContains r.2 "" then 1 else 0)
  | _, _, _ =>
    if op.opType = "move" then
      (fs, "Operacao move nao implementada ainda", 0)
    else
      (fs, "Operacao " ++ op.opType ++ " desconhecida", 0)

/-- Accumulator update of the `refactor` loop (`project_tools.py` lines
207-239): threads the state, appends the log line, adds the
`successful_ops` increment. -/
def refactorStep (core : String → String → String → String × Nat)
    (acc : FS × List String × Nat) (op : RefactorOp) : FS × List String × Nat :=
  let r := refactorOne core acc.1 op
  (r.1, acc.2.1 ++ [r.2.1], acc.2.2 + r.2.2)

/-- The `successful_ops` increment each `refactor` operation contributes,
as the source computes it: because of the vacuous `"" in result` check it
depends only on the operation's shape, never on the rename's outcome. -/
def refactorIncr (op : RefactorOp) : Nat :=
  match op.opType == "rename", op.old_name, op.new_name with
  | true, some _, some _ => 1
  | _, _, _ => 0

/-- `RefactorTool.execute`, assembled from the loop fold:
`success = successful_ops > 0`, no `error` field, metadata recording
totals. -/
def refactorExecute (core : String → String → String → String × Nat) (fs : FS)
    (operations : List RefactorOp) : ToolResult × FS :=
  let final := operations.foldl (refactorStep core) (fs, [], 0)
  ({ success := decide (0 < final.2.2)
     content := PyVal.pyStr (String.intercalate "\n" final.2.1)
     error := Option.none
     metadata := some [("total_operations", PyVal.pyInt (operations.length : Int)),
                       ("successful_operations", PyVal.pyInt (final.2.2 : Int))] },
   final.1)

/-! ## Shell tool (`src/tools/shell_tools.py`)

Subprocess execution is modelled by an oracle function given as a
parameter; each execute model additionally returns the list of commands it
actually spawned, so "no process side effect" is the statement that this
trace is empty. -/

/-- Outcome of `subprocess.run(command, shell=True, ..., timeout=...)`. -/
inductive BashOutcome where
  | completed (returncode : Int) (stdout stderr : String)
  | timedOut

/-- Python truthiness of an optional string argument: `None` and the empty
string are falsy (`if not command: ...`). -/
def truthyOpt : Option String → Option String
  | some s => if s = "" then Option.none else some s
  | Option.none => Option.none

/-- The fixed denylist of `BashTool.execute` (`shell_tools.py` line 54). -/
def dangerousPatterns : List String :=
  ["rm -rf /", "rm -rf *", "format", "del /f /s /q"]

/-- `BashTool.execute` (`shell_tools.py` lines 45-94): a falsy command is a
parameter error; a command containing any denylisted substring is blocked
before any subprocess is spawned; otherwise the command runs and `success`
is exit-code-zero (with *no* `error` field even on nonzero exit), and a
timeout is reported as a distinct failure. -/
def bashExecute (run : String → BashOutcome) (command : Option String)
    (cwd : String) (timeout : Nat) : ToolResult × List String :=
  match truthyOpt command with
  | Option.none => (ToolResult.fail "Parametro command e obrigatorio", [])
  | some cmd =>
    if dangerousPatterns.any (fun d => strContains cmd d) then
      (ToolResult.fail "Comando potencialmente perigoso bloqueado", [])
    else
      match run cmd with
      | BashOutcome.completed rc out err =>
        ({ success := decide (rc = 0)
           content := PyVal.pyDict [("stdout", PyVal.pyStr out),
                                    ("stderr", PyVal.pyStr err),
                                    ("returncode", PyVal.pyInt rc)]
           error := Option.none
           metadata := some [("command", PyVal.pyStr cmd),
                             ("cwd", PyVal.pyStr cwd),
                             ("timeout", PyVal.pyInt (timeout : Int))] },
         [cmd])
      | BashOutcome.timedOut =>
        (ToolResult.fail ("Comando excedeu timeout de " ++ toString timeout ++ " segundos"),
         [cmd])

/-! ## Search tool (`src/tools/search_tools.py`) -/

/-- Outcome of a non-shell `subprocess.run(cmd, capture_output=True)`. -/
structure SubprocResult where
  returncode : Int
  stdout : String
  stderr : String

/-- Python `s.strip()`. -/
def stripStr (s : String) : String :=
  ⟨((s.data.dropWhile Char.isWhitespace).reverse.dropWhile Char.isWhitespace).reverse⟩

/-- The compatibility shim of `GrepTool.execute` (`search_tools.py` lines
58-67): when `files` is truthy and `pattern` falsy, `pattern` becomes
`files[0]`; afterwards a falsy pattern is a parameter error. -/
def grepPat (pattern : Option String) (files : Option (List String)) : Option String :=
  match files, truthyOpt pattern with
  | some (f :: _), Option.none => truthyOpt (some f)
  | _, _ => truthyOpt pattern

/-- The command line `GrepTool.execute` builds (`search_tools.py` lines
70-86), for the ripgrep backend when `rg` is available and the plain grep
backend otherwise. -/
def grepCmd (rg : Bool) (pat path file_pattern : String)
    (ignore_case line_numbers : Bool) : List String :=
  if rg then
    ["rg", pat, path] ++ (if ignore_case then ["-i"] else []) ++
      (if line_numbers then ["-n"] else []) ++
      (if file_pattern ≠ "*" then ["-g", file_pattern] else [])
  else
    ["grep", "-r", pat, path] ++ (if ignore_case then ["-i"] else []) ++
      (if line_numbers then ["-n"] else []) ++
      (if file_pattern ≠ "*" then ["--include", file_pattern] else [])

/-- The search body of `GrepTool.execute` (`search_tools.py` lines 88-113)
as written in the source: run the command, treat exit codes above 1 as a
search error (exit code 1 is "no matches", per the source comment), and
otherwise return the stripped stdout split into lines (the empty list when
stdout is blank) with `success=true`. -/
def grepSearchBody (run : List String → SubprocResult) (rg : Bool)
    (pat path file_pattern : String) (ignore_case line_numbers : Bool) :
    ToolResult × List (List String) :=
  let cmd := grepCmd rg pat path file_pattern ignore_case line_numbers
  let r := run cmd
  if 1 < r.returncode then
    (ToolResult.fail ("Erro na busca: " ++ r.stderr), [cmd])
  else
    let stripped := stripStr r.stdout
    let found := if stripped = "" then [] else splitChar '\n' stripped
    ({ success := true
       content := PyVal.pyList (found.map PyVal.pyStr)
       metadata := some [("pattern", PyVal.pyStr pat),
                         ("path", PyVal.pyStr path),
                         ("file_pattern", PyVal.pyStr file_pattern),
                         ("matches_count", PyVal.pyInt (found.length : Int))] },
     [cmd])

/-- The attribute lookup `subprocess.which` on line 71 of
`search_tools.py`: the python `subprocess` module has no attribute `which`
(the function is `shutil.which`), so the lookup raises `AttributeError`
unconditionally. -/
def subprocessWhichLookup : Except String Bool :=
  Except.error "module subprocess has no attribute which"

/-- `GrepTool.execute` (`search_tools.py` lines 56-119): after the
parameter shim, the `try` block evaluates `subprocess.which` — which
raises — so control always reaches the `except` handler and the search
body is never executed. -/
def grepExecute (run : List String → SubprocResult) (pattern : Option String)
    (files : Option (List String)) (path file_pattern : String)
    (ignore_case line_numbers : Bool) : ToolResult × List (List String) :=
  match grepPat pattern files with
  | Option.none => (ToolResult.fail "Parametro pattern e obrigatorio", [])
  | some pat =>
    match subprocessWhichLookup with
    | Except.error e => (ToolResult.fail ("Erro ao buscar padrao: " ++ e), [])
    | Except.ok rg => grepSearchBody run rg pat path file_pattern ignore_case line_numbers

/-! ## Git tools (`src/tools/git_tools.py`) -/

/-- `GitStatusTool.execute` (`git_tools.py` lines 35-68): fails without
running git when `os.path.join(path, ".git")` does not exist; otherwise
runs `git status --porcelain` and maps a nonzero exit to a failure. -/
def gitStatusExecute (fs : FS) (run : List String → SubprocResult)
    (path : String) : ToolResult × List (List String) :=
  if !(fs.pathExists (joinGit path)) then
    (ToolResult.fail "Nao e um repositorio Git", [])
  else
    let cmd := ["git", "status", "--porcelain"]
    let r := run cmd
    if r.returncode ≠ 0 then
      (ToolResult.fail ("Erro Git: " ++ r.stderr), [cmd])
    else
      ({ success := true
         content := PyVal.pyStr r.stdout
         metadata := some [("path", PyVal.pyStr path)] },
       [cmd])

/-- `GitDiffTool.execute` (`git_tools.py` lines 100-130): builds
`git diff [--staged]` and runs it unconditionally — there is no `.git`
check in this tool — mapping a nonzero exit to a failure. -/
def gitDiffExecute (run : List String → SubprocResult) (path : String)
    (staged : Bool) : ToolResult × List (List String) :=
  let cmd := ["git", "diff"] ++ (if staged then ["--staged"] else [])
  let r := run cmd
  if r.returncode ≠ 0 then
    (ToolResult.fail ("Erro Git: " ++ r.stderr), [cmd])
  else
    ({ success := true
       content := PyVal.pyStr r.stdout
       metadata := some [("path", PyVal.pyStr path), ("staged", PyVal.pyBool staged)] },
     [cmd])

/-- `GitCommitTool.execute` (`git_tools.py` lines 167-209): no `.git`
check; when `add_all` is set it first runs `git add .` and a nonzero exit
there short-circuits; then runs `git commit -m message`, mapping a nonzero
exit to a failure. -/
def gitCommitExecute (run : List String → SubprocResult) (message : String)
    (path : String) (add_all : Bool) : ToolResult × List (List String) :=
  let addCmds : List (List String) := if add_all then [["git", "add", "."]] else []
  let addFailed := add_all && decide ((run ["git", "add", "."]).returncode ≠ 0)
  if addFailed then
    (ToolResult.fail ("Erro ao adicionar arquivos: " ++ (run ["git", "add", "."]).stderr),
     addCmds)
  else
    let cmd := ["git", "commit", "-m", message]
    let r := run cmd
    if r.returncode ≠ 0 then
      (ToolResult.fail ("Erro ao fazer commit: " ++ r.stderr), addCmds ++ [cmd])
    else
      ({ success := true
         content := PyVal.pyStr r.stdout
         metadata := some [("message", PyVal.pyStr message),
                           ("path", PyVal.pyStr path),
                           ("add_all", PyVal.pyBool add_all)] },
       addCmds ++ [cmd])

/-! ## Action dispatcher (`src/gemini_coder.py`) -/

/-- The write-tool call the dispatcher makes, allowing for a missing
`path` field in the directive: `registry.execute_tool("write",
file_path=None, ...)` reaches `os.path.dirname(None)`, which raises
`TypeError` inside `WriteTool.execute` and is caught by its handler. -/
def writeExecuteOpt (fs : FS) (file_path : Option String) (content : String) :
    ToolResult × FS :=
  match file_path with
  | Option.none => (ToolResult.fail "Erro ao escrever arquivo: TypeError", fs)
  | some p => writeExecute fs p content

/-- `GeminiCoder._handle_edit_file` (`gemini_coder.py` lines 116-137):
after displaying the directive it asks for confirmation; on `"s"` (after
lowercasing) it invokes the `write` tool with the directive's full
`new_content` — no existence or old-content check — and otherwise performs
no action.  Returns the tool result (when one was produced) and the
resulting state. -/
def handleEditFile (fs : FS) (path : Option String) (new_content : String)
    (confirm : String) : Option ToolResult × FS :=
  if pyLower confirm = "s" then
    let r := writeExecuteOpt fs path new_content
    (some r.1, r.2)
  else
    (Option.none, fs)

/-! ## Helper lemmas -/

theorem isPrefixL_self_append (p y : List Char) : isPrefixL p (p ++ y) = true := by
  induction p with
  | nil => rfl
  | cons a xs ih => simp [isPrefixL, ih]

theorem occursInL_nil_needle (l : List Char) : occursInL [] l = true := by
  cases l <;> simp [occursInL, isPrefixL]

theorem occursInL_append_self (x p y : List Char) :
    occursInL p (x ++ (p ++ y)) = true := by
  induction x with
  | nil =>
    cases p with
    | nil => simp [occursInL_nil_needle]
    | cons c ps =>
      simpa [occursInL] using Or.inl (isPrefixL_self_append (c :: ps) y)
  | cons a xs ih => simp [occursInL, ih]

/-- Every string contains the empty string — this is what makes the
`if "" in result:` check of `RefactorTool.execute` vacuous. -/
theorem strContains_empty (s : String) : strContains s "" = true := by
  simpa [strContains] using occursInL_nil_needle s.data

theorem strContains_middle (x s y : String) :
    strContains (x ++ s ++ y) s = true := by
  simp [strContains, String.data_append, List.append_assoc]
  exact occursInL_append_self x.data s.data y.data

theorem data_append_left_ne_nil (x s : String) (h : x.data ≠ []) :
    (x ++ s).data ≠ [] := by
  simp [String.data_append]
  intro h1 _
  exact h h1

/-- `readFile` and `isFile` depend only on the `files` component. -/
theorem FS.readFile_congr (fs1 fs2 : FS) (h : fs1.files = fs2.files) (p : String) :
    fs1.readFile p = fs2.readFile p := by
  simp [FS.readFile, h]

theorem FS.isFile_congr (fs1 fs2 : FS) (h : fs1.files = fs2.files) (p : String) :
    fs1.isFile p = fs2.isFile p := by
  simp [FS.isFile, h]

theorem FS.isFile_of_readFile (fs : FS) (p c : String) (h : fs.readFile p = some c) :
    fs.isFile p = true := by
  unfold FS.readFile at h
  cases hfind : fs.files.find? (fun e => e.1 == p) with
  | none => rw [hfind] at h; cases h
  | some e =>
    have hmem := List.mem_of_find?_eq_some hfind
    have hpred := List.find?_some hfind
    exact List.any_eq_true.mpr ⟨e, hmem, hpred⟩

theorem FS.pathExists_of_readFile (fs : FS) (p c : String) (h : fs.readFile p = some c) :
    fs.pathExists p = true := by
  simp [FS.pathExists, FS.isFile_of_readFile fs p c h]

theorem find?_filter_ne (l : List (String × String)) (p q : String) (h : q ≠ p) :
    (l.filter (fun e => !(e.1 == p))).find? (fun e => e.1 == q)
      = l.find? (fun e => e.1 == q) := by
  induction l with
  | nil => rfl
  | cons a l ih =>
    by_cases hap : a.1 = p
    · have h1 : (!(a.1 == p)) = false := by simp [hap]
      have h2 : (a.1 == q) = false := by rw [hap]; simpa using Ne.symm h
      simp [List.filter_cons, h1, List.find?, h2, ih]
    · have h1 : (!(a.1 == p)) = true := by simp [hap]
      by_cases haq : a.1 = q
      · have h3 : (a.1 == q) = true := by simp [haq]
        simp [List.filter_cons, h1, List.find?, h3]
      · have h2 : (a.1 == q) = false := by simp [haq]
        simp [List.filter_cons, h1, List.find?, h2, ih]

/-- Writing `p` makes `p` read back as the written content. -/
theorem FS.readFile_setFile_same (fs : FS) (p c : String) :
    (fs.setFile p c).readFile p = some c := by
  simp [FS.setFile, FS.readFile, List.find?]

/-- Writing `p` leaves every other path's content unchanged. -/
theorem FS.readFile_setFile_other (fs : FS) (p c q : String) (h : q ≠ p) :
    (fs.setFile p c).readFile q = fs.readFile q := by
  have h2 : (p == q) = false := by simpa using Ne.symm h
  simp [FS.setFile, FS.readFile, List.find?, h2, find?_filter_ne fs.files p q h]

/-- `setFile` never changes the directory set. -/
theorem FS.dirs_setFile (fs : FS) (p c : String) :
    (fs.setFile p c).dirs = fs.dirs := rfl

theorem FS.isDir_iff_mem (fs : FS) (q : String) : fs.isDir q = true ↔ q ∈ fs.dirs := by
  simp [FS.isDir, List.contains, List.elem_iff]

theorem mkdirStep_ok (fs : FS) (a : String) (ha : fs.isFile a = false) :
    ∃ fs1, mkdirStep fs a = Except.ok fs1
      ∧ fs1.files = fs.files
      ∧ fs1.isDir a = true
      ∧ (∀ q, fs.isDir q = true → fs1.isDir q = true)
      ∧ (∀ q, fs1.isDir q = true → fs.isDir q = true ∨ q = a) := by
  by_cases hd : fs.isDir a = true
  · exact ⟨fs, by simp [mkdirStep, ha, hd], rfl, hd, fun q hq => hq, fun q hq => Or.inl hq⟩
  · refine ⟨⟨fs.files, fs.dirs ++ [a]⟩, by simp [mkdirStep, ha, hd], rfl, ?_, ?_, ?_⟩
    · exact (FS.isDir_iff_mem _ a).mpr (by simp)
    · intro q hq
      exact (FS.isDir_iff_mem _ q).mpr (by simp [List.mem_append, (fs.isDir_iff_mem q).mp hq])
    · intro q hq
      rcases List.mem_append.mp ((FS.isDir_iff_mem _ q).mp hq) with hm | hm
      · exact Or.inl ((fs.isDir_iff_mem q).mpr hm)
      · exact Or.inr (by simpa using hm)

theorem mkdirFold_ok (l : List String) (fs : FS) (h : ∀ q ∈ l, fs.isFile q = false) :
    ∃ fs2, l.foldlM mkdirStep fs = Except.ok fs2
      ∧ fs2.files = fs.files
      ∧ (∀ q ∈ l, fs2.isDir q = true)
      ∧ (∀ q, fs.isDir q = true → fs2.isDir q = true)
      ∧ (∀ q, fs2.isDir q = true → fs.isDir q = true ∨ q ∈ l) := by
  induction l generalizing fs with
  | nil => exact ⟨fs, rfl, rfl, by simp, fun q hq => hq, fun q hq => Or.inl hq⟩
  | cons a l ih =>
    obtain ⟨fs1, hstep, hfiles1, hdira, hmono1, hsub1⟩ :=
      mkdirStep_ok fs a (h a (List.mem_cons_self a l))
    obtain ⟨fs2, hfold, hfiles2, hl2, hmono2, hsub2⟩ :=
      ih fs1 (fun q hq => by
        rw [FS.isFile_congr fs1 fs hfiles1 q]
        exact h q (List.mem_cons_of_mem a hq))
    refine ⟨fs2, ?_, hfiles2.trans hfiles1, ?_, ?_, ?_⟩
    · rw [List.foldlM_cons, hstep]
      exact hfold
    · intro q hq
      rcases List.mem_cons.mp hq with hq | hq
      · exact hq ▸ hmono2 a hdira
      · exact hl2 q hq
    · exact fun q hq => hmono2 q (hmono1 q hq)
    · intro q hq
      rcases hsub2 q hq with hq1 | hq1
      · rcases hsub1 q hq1 with hq2 | hq2
        · exact Or.inl hq2
        · exact Or.inr (hq2 ▸ List.mem_cons_self a l)
      · exact Or.inr (List.mem_cons_of_mem a hq1)

theorem makedirs_ok (fs : FS) (name : String) (hne : name ≠ "")
    (h : ∀ q ∈ pathPrefixes name, fs.isFile q = false) :
    ∃ fs2, makedirs fs name = Except.ok fs2
      ∧ fs2.files = fs.files
      ∧ (∀ q ∈ pathPrefixes name, fs2.isDir q = true)
      ∧ (∀ q, fs2.isDir q = true → fs.isDir q = true ∨ q ∈ pathPrefixes name) := by
  obtain ⟨fs2, hfold, hfiles, hl, _, hsub⟩ := mkdirFold_ok (pathPrefixes name) fs h
  exact ⟨fs2, by rw [makedirs, if_neg hne]; exact hfold, hfiles, hl, hsub⟩

theorem multiEditOne_cases (fs : FS) (e : EditItem) :
    (multiEditOne fs e).2.2 = true ∨ (multiEditOne fs e).1 = fs := by
  unfold multiEditOne
  split
  · exact Or.inr rfl
  · split
    · exact Or.inr rfl
    · split
      · exact Or.inr rfl
      · exact Or.inl rfl

theorem multiEdit_foldl_spec (edits : List EditItem) (fs : FS)
    (logs : List String) (n : Nat) :
    (edits.foldl multiEditStep (fs, logs, n)).1 = multiEditFinalFS fs edits
    ∧ (edits.foldl multiEditStep (fs, logs, n)).2.2
        = n + (multiEditOutcomes fs edits).count true := by
  induction edits generalizing fs logs n with
  | nil => simp [multiEditFinalFS, multiEditOutcomes]
  | cons e rest ih =>
    obtain ⟨h1, h2⟩ := ih (multiEditOne fs e).1 (logs ++ [(multiEditOne fs e).2.1])
      (n + if (multiEditOne fs e).2.2 then 1 else 0)
    refine ⟨?_, ?_⟩
    · simpa [List.foldl_cons, multiEditStep, multiEditFinalFS] using h1
    · rw [List.foldl_cons]
      rw [show multiEditStep (fs, logs, n) e
          = ((multiEditOne fs e).1, logs ++ [(multiEditOne fs e).2.1],
             n + if (multiEditOne fs e).2.2 then 1 else 0) from rfl]
      rw [h2]
      simp only [multiEditOutcomes, List.count_cons]
      cases hb : (multiEditOne fs e).2.2
      case false => simp
      case true => simp; omega

theorem multiEditOutcomes_length (fs : FS) (edits : List EditItem) :
    (multiEditOutcomes fs edits).length = edits.length := by
  induction edits generalizing fs with
  | nil => rfl
  | cons e rest ih => simp [multiEditOutcomes, ih]

theorem refactorOne_snd (core : String → String → String → String × Nat)
    (fs : FS) (op : RefactorOp) :
    (refactorOne core fs op).2.2 = refactorIncr op := by
  unfold refactorOne refactorIncr
  cases hb : op.opType == "rename" <;> cases ho : op.old_name <;> cases hn : op.new_name <;>
    simp [strContains_empty] <;> split <;> rfl

theorem refactor_foldl_count (core : String → String → String → String × Nat)
    (ops : List RefactorOp) (fs : FS) (logs : List String) (n : Nat) :
    (ops.foldl (refactorStep core) (fs, logs, n)).2.2
      = n + (ops.map refactorIncr).sum := by
  induction ops generalizing fs logs n with
  | nil => simp
  | cons op rest ih =>
    rw [List.foldl_cons]
    rw [show refactorStep core (fs, logs, n) op
        = ((refactorOne core fs op).1, logs ++ [(refactorOne core fs op).2.1],
           n + (refactorOne core fs op).2.2) from rfl]
    rw [ih, refactorOne_snd]
    simp [Nat.add_assoc]

theorem executeTool_found (σ : Type) (reg : List (Tool σ)) (name : String)
    (kwargs : List (String × PyVal)) (s : σ) (t : Tool σ)
    (hfind : registryFind reg name = some t) :
    executeTool reg name kwargs s
      = (match t.execute kwargs s with
         | (Except.ok r, s2) => (r, s2)
         | (Except.error e, s2) =>
           (ToolResult.fail ("Erro ao executar ferramenta " ++ name ++ ": " ++ e), s2)) := by
  unfold executeTool
  rw [hfind]

theorem error_iff_of_ite (c : Prop) [Decidable c] (msg : String) (ok : ToolResult)
    (tr tr2 : List (List String)) (hok : ok.error = Option.none) (hsucc : ok.success = true) :
    ((if c then (ToolResult.fail msg, tr) else (ok, tr2)).1.error ≠ Option.none
      ↔ (if c then (ToolResult.fail msg, tr) else (ok, tr2)).1.success = false) := by
  by_cases h : c <;> simp [h, ToolResult.fail, hok, hsucc]

theorem editExecute_some (fs : FS) (p old new c : String) (hc : fs.readFile p = some c) :
    editExecute fs p old new
      = (if (!strContains c old) = true then
           (ToolResult.fail ("Texto " ++ old ++ " nao encontrado no arquivo"), fs)
         else
           ({ success := true
              content := PyVal.pyStr ("Arquivo " ++ p ++ " editado com sucesso")
              metadata := some [("file_path", PyVal.pyStr p),
                                ("replacements", PyVal.pyInt (strCount c old : Int))] },
            fs.setFile p (strReplace c old new))) := by
  unfold editExecute
  rw [if_neg (by simp [fs.pathExists_of_readFile p c hc]), hc]

theorem error_iff_of_ite2 (c1 c2 : Prop) [Decidable c1] [Decidable c2]
    (m1 m2 : String) (ok : ToolResult) (t1 t2 t3 : List (List String))
    (hok : ok.error = Option.none) (hsucc : ok.success = true) :
    ((if c1 then (ToolResult.fail m1, t1)
      else if c2 then (ToolResult.fail m2, t2) else (ok, t3)).1.error ≠ Option.none
      ↔ (if c1 then (ToolResult.fail m1, t1)
         else if c2 then (ToolResult.fail m2, t2) else (ok, t3)).1.success = false) := by
  by_cases h1 : c1 <;> by_cases h2 : c2 <;> simp [h1, h2, ToolResult.fail, hok, hsucc]

/-! ## Claim theorems -/

/-- C1: for every tool name and argument mapping, `ToolRegistry.execute_tool`
returns a `ToolResult` and never raises to its caller (the return type of the
embedding is `ToolResult × σ`, not `Except`): an unregistered name yields
`success=false` with an error mentioning the name and no state change, and a
raise from the named tool's `execute` is caught and wrapped into
`success=false` with a non-empty error. -/
theorem registry_execute_total (σ : Type) (reg : List (Tool σ)) (name : String)
    (kwargs : List (String × PyVal)) (s : σ) :
    (registryFind reg name = Option.none →
      (executeTool reg name kwargs s).1.success = false
      ∧ (∃ m, (executeTool reg name kwargs s).1.error = some m
          ∧ strContains m name = true ∧ m.data ≠ [])
      ∧ (executeTool reg name kwargs s).2 = s)
    ∧ (∀ t e s2, registryFind reg name = some t →
        t.execute kwargs s = (Except.error e, s2) →
        (executeTool reg name kwargs s).1.success = false
        ∧ (∃ m, (executeTool reg name kwargs s).1.error = some m ∧ m.data ≠ [])
        ∧ (executeTool reg name kwargs s).2 = s2) := by
  constructor
  · intro hfind
    unfold executeTool
    rw [hfind]
    refine ⟨rfl, ⟨_, rfl, ?_, ?_⟩, rfl⟩
    · exact strContains_middle "Ferramenta " name " nao encontrada"
    · exact data_append_left_ne_nil _ _
        (data_append_left_ne_nil "Ferramenta " name (by decide))
  · intro t e s2 hfind hexec
    rw [executeTool_found σ reg name kwargs s t hfind, hexec]
    refine ⟨rfl, ⟨_, rfl, ?_⟩, rfl⟩
    exact data_append_left_ne_nil _ _
      (data_append_left_ne_nil _ _
        (data_append_left_ne_nil "Erro ao executar ferramenta " name (by decide)))

/-- Witness for C1: the empty registry with an unknown name, and a one-tool
registry whose tool raises. -/
theorem registry_execute_total_witness :
    ((executeTool ([] : List (Tool Unit)) "ghost" [] ()).1.success = false
      ∧ (∃ m, (executeTool ([] : List (Tool Unit)) "ghost" [] ()).1.error = some m
          ∧ strContains m "ghost" = true ∧ m.data ≠ [])
      ∧ (executeTool ([] : List (Tool Unit)) "ghost" [] ()).2 = ())
    ∧ ((executeTool [Tool.mk "boom" (fun _ s => (Except.error "falhou", s))] "boom" [] ()).1.success = false
      ∧ (∃ m, (executeTool [Tool.mk "boom" (fun _ s => (Except.error "falhou", s))] "boom" [] ()).1.error = some m
          ∧ m.data ≠ [])
      ∧ (executeTool [Tool.mk "boom" (fun _ s => (Except.error "falhou", s))] "boom" [] ()).2 = ()) :=
  ⟨(registry_execute_total Unit [] "ghost" [] ()).1 rfl,
   (registry_execute_total Unit [Tool.mk "boom" (fun _ s => (Except.error "falhou", s))] "boom" [] ()).2
     (Tool.mk "boom" (fun _ s => (Except.error "falhou", s))) "falhou" () rfl rfl⟩

/-- C2 counterexample: `multi_edit` with a single item that targets a
missing file returns `success=false` with `error=None` — the claimed
"error is non-None iff success is false" invariant fails on the batch
tools. -/
theorem toolresult_error_iff_counterexample :
    (multiEditExecute ⟨[], []⟩ [⟨"missing.txt", "a", "b"⟩]).1.success = false
    ∧ (multiEditExecute ⟨[], []⟩ [⟨"missing.txt", "a", "b"⟩]).1.error = Option.none :=
  ⟨by decide, by decide⟩

/-- C2 (amended): the error-iff-failure invariant holds for the
single-operation tools (read, write, edit, grep, git status/diff/commit),
but the batch tools `multi_edit` and `refactor` never set `error` (even
when every item fails and `success=false`), and `bash` leaves `error=None`
on every completed run (so a nonzero exit gives `success=false` with
`error=None`). -/
theorem toolresult_error_iff_amended :
    (∀ fs p, ((readExecute fs p).error ≠ Option.none
        ↔ (readExecute fs p).success = false))
    ∧ (∀ fs p c, ((writeExecute fs p c).1.error ≠ Option.none
        ↔ (writeExecute fs p c).1.success = false))
    ∧ (∀ fs p o n, ((editExecute fs p o n).1.error ≠ Option.none
        ↔ (editExecute fs p o n).1.success = false))
    ∧ (∀ run pat fls path fp ic ln,
        ((grepExecute run pat fls path fp ic ln).1.error ≠ Option.none
          ↔ (grepExecute run pat fls path fp ic ln).1.success = false))
    ∧ (∀ fs run path, ((gitStatusExecute fs run path).1.error ≠ Option.none
        ↔ (gitStatusExecute fs run path).1.success = false))
    ∧ (∀ run path staged, ((gitDiffExecute run path staged).1.error ≠ Option.none
        ↔ (gitDiffExecute run path staged).1.success = false))
    ∧ (∀ run m path a, ((gitCommitExecute run m path a).1.error ≠ Option.none
        ↔ (gitCommitExecute run m path a).1.success = false))
    ∧ (∀ fs edits, (multiEditExecute fs edits).1.error = Option.none)
    ∧ (∀ core fs ops, (refactorExecute core fs ops).1.error = Option.none)
    ∧ (∀ run cmd cwd t rc out err, cmd ≠ "" →
        dangerousPatterns.any (fun d => strContains cmd d) = false →
        run cmd = BashOutcome.completed rc out err →
        (bashExecute run (some cmd) cwd t).1.error = Option.none
        ∧ ((bashExecute run (some cmd) cwd t).1.success = false ↔ rc ≠ 0)) := by
  refine ⟨?_, ?_, ?_, ?_, ?_, ?_, ?_, ?_, ?_, ?_⟩
  · intro fs p
    unfold readExecute
    split
    · simp [ToolResult.fail]
    · split <;> simp [ToolResult.fail]
  · intro fs p c
    unfold writeExecute
    split
    · simp [ToolResult.fail]
    · split <;> simp [ToolResult.fail]
  · intro fs p o n
    unfold editExecute
    split
    · simp [ToolResult.fail]
    · split
      · simp [ToolResult.fail]
      · split <;> simp [ToolResult.fail]
  · intro run pat fls path fp ic ln
    unfold grepExecute
    split <;> simp [subprocessWhichLookup, ToolResult.fail]
  · intro fs run path
    unfold gitStatusExecute
    split
    · simp [ToolResult.fail]
    · exact error_iff_of_ite _ _ _ _ _ rfl rfl
  · intro run path staged
    exact error_iff_of_ite _ _ _ _ _ rfl rfl
  · intro run m path a
    exact error_iff_of_ite2 _ _ _ _ _ _ _ _ rfl rfl
  · intro fs edits
    rfl
  · intro core fs ops
    rfl
  · intro run cmd cwd t rc out err hne hdang hrun
    simp only [bashExecute, truthyOpt, if_neg hne, hdang, Bool.false_eq_true, if_false, hrun]
    exact ⟨by simp, by simp⟩

/-- Witness for C2 (amended): a concrete read failure satisfies the iff,
and a concrete completed bash run with exit code 1 has `success=false`
with `error=None`. -/
theorem toolresult_error_iff_amended_witness :
    ((readExecute ⟨[], []⟩ "ghost.txt").error ≠ Option.none
      ↔ (readExecute ⟨[], []⟩ "ghost.txt").success = false)
    ∧ ((bashExecute (fun _ => BashOutcome.completed 1 "" "x") (some "ls") "." 30).1.error
        = Option.none
      ∧ ((bashExecute (fun _ => BashOutcome.completed 1 "" "x") (some "ls") "." 30).1.success = false
        ↔ (1 : Int) ≠ 0)) :=
  ⟨toolresult_error_iff_amended.1 ⟨[], []⟩ "ghost.txt",
   toolresult_error_iff_amended.2.2.2.2.2.2.2.2.2
     (fun _ => BashOutcome.completed 1 "" "x") "ls" "." 30 1 "" "x"
     (by decide) (by decide) rfl⟩

/-- C3 (code bug): every grep call that passes the parameter check fails —
the attribute lookup `subprocess.which` raises `AttributeError`, so the
caught exception turns every search, matches or not, into `success=false`
with the `AttributeError` message and no subprocess is ever spawned.  The
search body as written in the source (and never reached) would have
returned `success=true` with an empty list for a zero-match exit and a
failure only for exit codes above 1, exactly as the claim states. -/
theorem grep_always_fails_bug :
    (∀ run pattern files path fp ic ln pat,
      grepPat pattern files = some pat →
      (grepExecute run pattern files path fp ic ln).1.success = false
      ∧ (grepExecute run pattern files path fp ic ln).1.error
          = some "Erro ao buscar padrao: module subprocess has no attribute which"
      ∧ (grepExecute run pattern files path fp ic ln).2 = [])
    ∧ (∀ run rg pat path fp ic ln,
        (run (grepCmd rg pat path fp ic ln)).returncode ≤ 1 →
        stripStr (run (grepCmd rg pat path fp ic ln)).stdout = "" →
        (grepSearchBody run rg pat path fp ic ln).1.success = true
        ∧ (grepSearchBody run rg pat path fp ic ln).1.content = PyVal.pyList [])
    ∧ (∀ run rg pat path fp ic ln,
        1 < (run (grepCmd rg pat path fp ic ln)).returncode →
        (grepSearchBody run rg pat path fp ic ln).1.success = false
        ∧ (grepSearchBody run rg pat path fp ic ln).1.error ≠ Option.none) := by
  refine ⟨?_, ?_, ?_⟩
  · intro run pattern files path fp ic ln pat hpat
    unfold grepExecute
    rw [hpat]
    exact ⟨rfl, rfl, rfl⟩
  · intro run rg pat path fp ic ln h1 h2
    unfold grepSearchBody
    rw [if_neg (not_lt.mpr h1), h2]
    exact ⟨rfl, rfl⟩
  · intro run rg pat path fp ic ln h1
    unfold grepSearchBody
    rw [if_pos h1]
    exact ⟨rfl, by simp [ToolResult.fail]⟩

/-- Witness for C3: a concrete valid pattern with a zero-match oracle; the
shipped execute fails with the `AttributeError` message, while the
unreachable search body would have succeeded with an empty list. -/
theorem grep_always_fails_bug_witness :
    grepPat (some "hello") Option.none = some "hello"
    ∧ (grepExecute (fun _ => ⟨1, "", ""⟩) (some "hello") Option.none "." "*" false true).1.success
        = false
    ∧ (grepExecute (fun _ => ⟨1, "", ""⟩) (some "hello") Option.none "." "*" false true).1.error
        = some "Erro ao buscar padrao: module subprocess has no attribute which"
    ∧ (grepExecute (fun _ => ⟨1, "", ""⟩) (some "hello") Option.none "." "*" false true).2 = []
    ∧ (grepSearchBody (fun _ => ⟨1, "", ""⟩) false "hello" "." "*" false true).1.success = true
    ∧ (grepSearchBody (fun _ => ⟨1, "", ""⟩) false "hello" "." "*" false true).1.content
        = PyVal.pyList [] := by
  have h1 := grep_always_fails_bug.1 (fun _ => ⟨1, "", ""⟩) (some "hello") Option.none
    "." "*" false true "hello" rfl
  have h2 := grep_always_fails_bug.2.1 (fun _ => ⟨1, "", ""⟩) false "hello" "." "*" false true
    (by decide) rfl
  exact ⟨rfl, h1.1, h1.2.1, h1.2.2, h2.1, h2.2⟩

/-- C4 counterexample: editing a file whose content is `"a"`, replacing
`"a"` by `"aa"`, succeeds and leaves content `"aa"`, which still contains
the old text — refuting "zero occurrences of old_text remain". -/
theorem edit_occurrences_remain_counterexample :
    (editExecute ⟨[("f.txt", "a")], []⟩ "f.txt" "a" "aa").1.success = true
    ∧ (editExecute ⟨[("f.txt", "a")], []⟩ "f.txt" "a" "aa").2.readFile "f.txt" = some "aa"
    ∧ strContains "aa" "a" = true :=
  ⟨by decide, by decide, by decide⟩

/-- C4 (amended): `edit` fails, leaving the filesystem unchanged, when the
file is absent (or unreadable) or `old_text` does not occur; otherwise it
writes the python `str.replace` result — every leftmost non-overlapping
occurrence replaced, though occurrences of `old_text` may reappear — and
reports as `replacements` the non-overlapping occurrence count of the
original content, touching no other file. -/
theorem edit_semantics_amended (fs : FS) (p old new : String) :
    (fs.readFile p = Option.none →
      (editExecute fs p old new).1.success = false
      ∧ (editExecute fs p old new).2 = fs)
    ∧ (∀ c, fs.readFile p = some c → strContains c old = false →
      (editExecute fs p old new).1.success = false
      ∧ (editExecute fs p old new).2 = fs)
    ∧ (∀ c, fs.readFile p = some c → strContains c old = true →
      (editExecute fs p old new).1.success = true
      ∧ (editExecute fs p old new).2 = fs.setFile p (strReplace c old new)
      ∧ (editExecute fs p old new).2.readFile p = some (strReplace c old new)
      ∧ (editExecute fs p old new).1.metaInt "replacements" = some (strCount c old : Int)
      ∧ (∀ q, q ≠ p → (editExecute fs p old new).2.readFile q = fs.readFile q)) := by
  refine ⟨?_, ?_, ?_⟩
  · intro hnone
    unfold editExecute
    by_cases hex : fs.pathExists p = true
    · rw [if_neg (by simp [hex]), hnone]
      exact ⟨rfl, rfl⟩
    · rw [if_pos (by simp [Bool.eq_false_iff.mpr (fun hc => hex hc)])]
      exact ⟨rfl, rfl⟩
  · intro c hc hold
    rw [editExecute_some fs p old new c hc, if_pos (by simp [hold])]
    exact ⟨rfl, rfl⟩
  · intro c hc hold
    rw [editExecute_some fs p old new c hc, if_neg (by simp [hold])]
    refine ⟨rfl, rfl, fs.readFile_setFile_same p _, ?_, ?_⟩
    · rfl
    · intro q hq
      exact fs.readFile_setFile_other p _ q hq

/-- Witness for C4 (amended) at the P3 instance: a file containing `foo`
three times; all three occurrences are replaced and the reported count
is 3. -/
theorem edit_semantics_amended_witness :
    (editExecute ⟨[("f.py", "foo x foo y foo")], []⟩ "f.py" "foo" "bar").1.success = true
    ∧ (editExecute ⟨[("f.py", "foo x foo y foo")], []⟩ "f.py" "foo" "bar").2.readFile "f.py"
        = some (strReplace "foo x foo y foo" "foo" "bar")
    ∧ (editExecute ⟨[("f.py", "foo x foo y foo")], []⟩ "f.py" "foo" "bar").1.metaInt
        "replacements" = some (strCount "foo x foo y foo" "foo" : Int)
    ∧ strReplace "foo x foo y foo" "foo" "bar" = "bar x bar y bar"
    ∧ strCount "foo x foo y foo" "foo" = 3
    ∧ strContains (strReplace "foo x foo y foo" "foo" "bar") "foo" = false := by
  have h := (edit_semantics_amended ⟨[("f.py", "foo x foo y foo")], []⟩ "f.py" "foo" "bar").2.2
    "foo x foo y foo" (by decide) (by decide)
  exact ⟨h.1, h.2.2.1, h.2.2.2.1, by decide, by decide, by decide⟩

/-- C5: `multi_edit` applies every item (the outcome list has one entry per
item), a failing head item leaves the state unchanged and the remaining
items behave as if it were absent, overall `success` holds iff at least
one item succeeded, and the metadata reports the items attempted and the
items that succeeded. -/
theorem multi_edit_failsoft (fs : FS) (edits : List EditItem) :
    ((multiEditExecute fs edits).1.success = true ↔ true ∈ multiEditOutcomes fs edits)
    ∧ (multiEditExecute fs edits).1.metaInt "total_edits" = some (edits.length : Int)
    ∧ (multiEditExecute fs edits).1.metaInt "successful_edits"
        = some ((multiEditOutcomes fs edits).count true : Int)
    ∧ (multiEditOutcomes fs edits).length = edits.length
    ∧ (multiEditExecute fs edits).2 = multiEditFinalFS fs edits
    ∧ (∀ e rest, edits = e :: rest → (multiEditOne fs e).2.2 = false →
        multiEditFinalFS fs edits = multiEditFinalFS fs rest
        ∧ multiEditOutcomes fs edits = false :: multiEditOutcomes fs rest) := by
  obtain ⟨hfs, hcnt⟩ := multiEdit_foldl_spec edits fs [] 0
  refine ⟨?_, ?_, ?_, multiEditOutcomes_length fs edits, ?_, ?_⟩
  · show decide (0 < (edits.foldl multiEditStep (fs, [], 0)).2.2) = true ↔ _
    rw [hcnt]
    simp [List.count_pos_iff]
  · show ToolResult.metaInt _ "total_edits" = _
    simp [multiEditExecute, ToolResult.metaInt, ToolResult.metaVal, PyVal.asInt, List.find?]
  · show ToolResult.metaInt _ "successful_edits" = _
    simp [multiEditExecute, ToolResult.metaInt, ToolResult.metaVal, PyVal.asInt, List.find?,
      hcnt]
  · exact hfs
  · intro e rest heq hfail
    have h1 : (multiEditOne fs e).1 = fs :=
      (multiEditOne_cases fs e).resolve_left (by simp [hfail])
    subst heq
    constructor
    · show multiEditFinalFS (multiEditOne fs e).1 rest = _
      rw [h1]
    · show (multiEditOne fs e).2.2 :: multiEditOutcomes (multiEditOne fs e).1 rest = _
      rw [h1, hfail]

/-- Witness for C5 at the P5 instance: two items, the first targeting a
missing file and the second a valid edit; the batch succeeds with
`successful_edits=1` of `total_edits=2` and the second edit applied. -/
theorem multi_edit_failsoft_witness :
    (multiEditExecute ⟨[("ok.txt", "hello")], []⟩
        [⟨"missing.txt", "a", "b"⟩, ⟨"ok.txt", "hello", "world"⟩]).1.success = true
    ∧ (multiEditExecute ⟨[("ok.txt", "hello")], []⟩
        [⟨"missing.txt", "a", "b"⟩, ⟨"ok.txt", "hello", "world"⟩]).1.metaInt "total_edits"
        = some 2
    ∧ (multiEditExecute ⟨[("ok.txt", "hello")], []⟩
        [⟨"missing.txt", "a", "b"⟩, ⟨"ok.txt", "hello", "world"⟩]).1.metaInt "successful_edits"
        = some 1
    ∧ multiEditOutcomes ⟨[("ok.txt", "hello")], []⟩
        [⟨"missing.txt", "a", "b"⟩, ⟨"ok.txt", "hello", "world"⟩] = [false, true]
    ∧ (multiEditExecute ⟨[("ok.txt", "hello")], []⟩
        [⟨"missing.txt", "a", "b"⟩, ⟨"ok.txt", "hello", "world"⟩]).2.readFile "ok.txt"
        = some "world" := by
  have h := multi_edit_failsoft ⟨[("ok.txt", "hello")], []⟩
    [⟨"missing.txt", "a", "b"⟩, ⟨"ok.txt", "hello", "world"⟩]
  refine ⟨h.1.mpr (by decide), ?_, ?_, by decide, by decide⟩
  · rw [h.2.1]; rfl
  · rw [h.2.2.1]; rfl

/-- C6 counterexample: writing to a bare filename with no directory
component fails (`os.makedirs(os.path.dirname(p))` is `os.makedirs("")`,
which raises) and performs no write — refuting "returns success=true ...
for a bare filename with no directory component". -/
theorem write_bare_filename_counterexample :
    (writeExecute ⟨[], []⟩ "notes.txt" "hi").1.success = false
    ∧ (writeExecute ⟨[], []⟩ "notes.txt" "hi").1.error ≠ Option.none
    ∧ (writeExecute ⟨[], []⟩ "notes.txt" "hi").2 = ⟨[], []⟩ :=
  ⟨by decide, by decide, by decide⟩

theorem writeExecute_mk (fs fs1 : FS) (p content : String)
    (hmk : makedirs fs (dirnameStr p) = Except.ok fs1) :
    writeExecute fs p content
      = (if fs1.isDir p then
           (ToolResult.fail "Erro ao escrever arquivo: e um diretorio", fs1)
         else
           ({ success := true
              content := PyVal.pyStr ("Arquivo " ++ p ++ " criado/atualizado com sucesso")
              metadata := some [("file_path", PyVal.pyStr p),
                                ("size", PyVal.pyInt (content.length : Int))] },
            fs1.setFile p content)) := by
  unfold writeExecute
  rw [hmk]

theorem writeExecute_err (fs : FS) (p content e : String)
    (hmk : makedirs fs (dirnameStr p) = Except.error e) :
    writeExecute fs p content = (ToolResult.fail ("Erro ao escrever arquivo: " ++ e), fs) := by
  unfold writeExecute
  rw [hmk]

theorem writeExecute_ok (fs : FS) (p content : String)
    (h1 : dirnameStr p ≠ "")
    (h2 : ∀ q ∈ pathPrefixes (dirnameStr p), fs.isFile q = false)
    (h3 : fs.isDir p = false) (h4 : p ∉ pathPrefixes (dirnameStr p)) :
    (writeExecute fs p content).1.success = true
    ∧ (writeExecute fs p content).2.readFile p = some content
    ∧ (∀ q, q ≠ p → (writeExecute fs p content).2.readFile q = fs.readFile q)
    ∧ (∀ q ∈ pathPrefixes (dirnameStr p), (writeExecute fs p content).2.isDir q = true) := by
  obtain ⟨fs1, hmk, hfiles, hdirs, hsub⟩ := makedirs_ok fs (dirnameStr p) h1 h2
  have hnd : fs1.isDir p = false := by
    cases hq : fs1.isDir p
    · rfl
    · rcases hsub p hq with hx | hx
      · rw [h3] at hx; cases hx
      · exact absurd hx h4
  rw [writeExecute_mk fs fs1 p content hmk, if_neg (by simp [hnd])]
  refine ⟨rfl, fs1.readFile_setFile_same p content, ?_, ?_⟩
  · intro q hq
    rw [fs1.readFile_setFile_other p content q hq]
    exact FS.readFile_congr fs1 fs hfiles q
  · intro q hqmem
    show (fs1.setFile p content).isDir q = true
    exact hdirs q hqmem

/-- C6 (amended): `write` creates the missing parent directories and
overwrites the target unconditionally, succeeding for every path with a
nonempty directory component that is not blocked by an existing file or
directory — but for a bare filename with no directory component the
directory-creation step raises (`os.makedirs("")`) and `write` returns
`success=false`, leaving the filesystem unchanged. -/
theorem write_semantics_amended (fs : FS) (p content : String) :
    (dirnameStr p = "" →
      (writeExecute fs p content).1.success = false
      ∧ (writeExecute fs p content).1.error ≠ Option.none
      ∧ (writeExecute fs p content).2 = fs)
    ∧ (dirnameStr p ≠ "" →
       (∀ q ∈ pathPrefixes (dirnameStr p), fs.isFile q = false) →
       fs.isDir p = false → p ∉ pathPrefixes (dirnameStr p) →
       (writeExecute fs p content).1.success = true
       ∧ (writeExecute fs p content).2.readFile p = some content
       ∧ (∀ q, q ≠ p → (writeExecute fs p content).2.readFile q = fs.readFile q)
       ∧ (∀ q ∈ pathPrefixes (dirnameStr p), (writeExecute fs p content).2.isDir q = true)) := by
  constructor
  · intro h
    have hmk : makedirs fs (dirnameStr p)
        = Except.error "No such file or directory: empty path" := by
      rw [h]; rfl
    rw [writeExecute_err fs p content _ hmk]
    exact ⟨rfl, by simp [ToolResult.fail], rfl⟩
  · intro h1 h2 h3 h4
    exact writeExecute_ok fs p content h1 h2 h3 h4

/-- Witness for C6 (amended): the bare filename `notes.txt` fails with no
state change, while `d/notes.txt` succeeds, creates directory `d`, and
reads back the written content. -/
theorem write_semantics_amended_witness :
    ((writeExecute ⟨[], []⟩ "notes.txt" "hi").1.success = false
      ∧ (writeExecute ⟨[], []⟩ "notes.txt" "hi").2 = ⟨[], []⟩)
    ∧ ((writeExecute ⟨[], []⟩ "d/notes.txt" "hi").1.success = true
      ∧ (writeExecute ⟨[], []⟩ "d/notes.txt" "hi").2.readFile "d/notes.txt" = some "hi"
      ∧ (writeExecute ⟨[], []⟩ "d/notes.txt" "hi").2.isDir "d" = true) := by
  have hbare := (write_semantics_amended ⟨[], []⟩ "notes.txt" "hi").1 (by decide)
  have hok := (write_semantics_amended ⟨[], []⟩ "d/notes.txt" "hi").2
    (by decide) (by decide) (by decide) (by decide)
  exact ⟨⟨hbare.1, hbare.2.2⟩, hok.1, hok.2.1, hok.2.2.2 "d" (by decide)⟩

/-- C7 counterexample: on a filesystem without a `.git` entry, `git_diff`
still spawns the git subprocess (its trace is nonempty) — refuting "every
git tool fails fast without executing any git subprocess"; `git_commit`
likewise spawns `git commit`. -/
theorem git_failfast_counterexample :
    FS.pathExists ⟨[], []⟩ (joinGit ".") = false
    ∧ (gitDiffExecute (fun _ => ⟨128, "", "fatal: not a git repository"⟩) "." false).2
        = [["git", "diff"]]
    ∧ (gitDiffExecute (fun _ => ⟨128, "", "fatal: not a git repository"⟩) "." false).1.success
        = false
    ∧ (gitCommitExecute (fun _ => ⟨128, "", "fatal: not a git repository"⟩) "msg" "." false).2
        = [["git", "commit", "-m", "msg"]] :=
  ⟨by decide, by decide, by decide, by decide⟩

theorem gitDiffExecute_eq (run : List String → SubprocResult) (path : String)
    (staged : Bool) (cmd : List String)
    (hcmd : ["git", "diff"] ++ (if staged then ["--staged"] else []) = cmd) :
    gitDiffExecute run path staged
      = (if (run cmd).returncode ≠ 0 then
           (ToolResult.fail ("Erro Git: " ++ (run cmd).stderr), [cmd])
         else
           ({ success := true
              content := PyVal.pyStr (run cmd).stdout
              metadata := some [("path", PyVal.pyStr path),
                                ("staged", PyVal.pyBool staged)] },
            [cmd])) := by
  subst hcmd
  rfl

theorem gitCommitExecute_eq (run : List String → SubprocResult)
    (message path : String) (add_all : Bool) :
    gitCommitExecute run message path add_all
      = (if (add_all && decide ((run ["git", "add", "."]).returncode ≠ 0)) = true then
           (ToolResult.fail ("Erro ao adicionar arquivos: " ++ (run ["git", "add", "."]).stderr),
            if add_all then [["git", "add", "."]] else [])
         else if (run ["git", "commit", "-m", message]).returncode ≠ 0 then
           (ToolResult.fail ("Erro ao fazer commit: "
              ++ (run ["git", "commit", "-m", message]).stderr),
            (if add_all then [["git", "add", "."]] else []) ++ [["git", "commit", "-m", message]])
         else
           ({ success := true
              content := PyVal.pyStr (run ["git", "commit", "-m", message]).stdout
              metadata := some [("message", PyVal.pyStr message),
                                ("path", PyVal.pyStr path),
                                ("add_all", PyVal.pyBool add_all)] },
            (if add_all then [["git", "add", "."]] else [])
              ++ [["git", "commit", "-m", message]])) := rfl

/-- C7 (amended): only `git_status` fails fast — `success=false` with no
subprocess — when the working directory lacks a `.git` entry; `git_diff`
and `git_commit` perform no such check and always spawn git (their traces
are nonempty regardless of the filesystem), relying on git's own nonzero
exit for failure. -/
theorem git_failfast_amended (fs : FS) (run : List String → SubprocResult)
    (path message : String) (staged add_all : Bool) :
    (fs.pathExists (joinGit path) = false →
      (gitStatusExecute fs run path).1.success = false
      ∧ (gitStatusExecute fs run path).1.error ≠ Option.none
      ∧ (gitStatusExecute fs run path).2 = [])
    ∧ (gitDiffExecute run path staged).2
        = [["git", "diff"] ++ (if staged then ["--staged"] else [])]
    ∧ ((gitDiffExecute run path staged).1.success = true
        ↔ (run (["git", "diff"] ++ (if staged then ["--staged"] else []))).returncode = 0)
    ∧ (gitCommitExecute run message path add_all).2 ≠ [] := by
  refine ⟨?_, ?_, ?_, ?_⟩
  · intro h
    unfold gitStatusExecute
    rw [if_pos (by simp [h])]
    exact ⟨rfl, by simp [ToolResult.fail], rfl⟩
  · rw [gitDiffExecute_eq run path staged _ rfl]
    by_cases hrc : (run (["git", "diff"] ++ (if staged then ["--staged"] else []))).returncode = 0
    · rw [if_neg (not_not_intro hrc)]
    · rw [if_pos hrc]
  · rw [gitDiffExecute_eq run path staged _ rfl]
    by_cases hrc : (run (["git", "diff"] ++ (if staged then ["--staged"] else []))).returncode = 0
    · rw [if_neg (not_not_intro hrc)]
      exact ⟨fun _ => hrc, fun _ => rfl⟩
    · rw [if_pos hrc]
      exact ⟨fun hff => (Bool.false_ne_true hff).elim, fun hc => (hrc hc).elim⟩
  · rw [gitCommitExecute_eq run message path add_all]
    by_cases h1 : (add_all && decide ((run ["git", "add", "."]).returncode ≠ 0)) = true
    · rw [if_pos h1]
      have ha : add_all = true := (Bool.and_eq_true _ _).mp h1 |>.1
      simp [ha]
    · rw [if_neg h1]
      by_cases h2 : (run ["git", "commit", "-m", message]).returncode ≠ 0
      · rw [if_pos h2]
        simp
      · rw [if_neg h2]
        simp

/-- Witness for C7 (amended) on a concrete repo-less filesystem and a git
oracle that exits 128. -/
theorem git_failfast_amended_witness :
    ((gitStatusExecute ⟨[], []⟩ (fun _ => ⟨128, "", "fatal"⟩) ".").1.success = false
      ∧ (gitStatusExecute ⟨[], []⟩ (fun _ => ⟨128, "", "fatal"⟩) ".").2 = [])
    ∧ (gitDiffExecute (fun _ => ⟨128, "", "fatal"⟩) "." false).2
        = [["git", "diff"] ++ (if false then ["--staged"] else [])]
    ∧ (gitCommitExecute (fun _ => ⟨128, "", "fatal"⟩) "msg" "." true).2 ≠ [] := by
  have h := git_failfast_amended ⟨[], []⟩ (fun _ => ⟨128, "", "fatal"⟩) "." "msg" false true
  have hs := h.1 (by decide)
  exact ⟨⟨hs.1, hs.2.2⟩, h.2.1, h.2.2.2⟩

/-- C8: a command containing any denylisted substring is rejected before
any subprocess is spawned: the result is exactly the policy-blocked
failure with an empty spawn trace. -/
theorem bash_denylist_blocks (run : String → BashOutcome) (cmd cwd : String)
    (timeout : Nat) (h : dangerousPatterns.any (fun d => strContains cmd d) = true) :
    bashExecute run (some cmd) cwd timeout
      = (ToolResult.fail "Comando potencialmente perigoso bloqueado", []) := by
  have hne : cmd ≠ "" := by
    intro hc
    rw [hc] at h
    exact absurd h (by decide)
  simp only [bashExecute, truthyOpt, if_neg hne, h, if_true]

/-- Witness for C8: `bash("rm -rf /")` is blocked with no spawn. -/
theorem bash_denylist_blocks_witness :
    dangerousPatterns.any (fun d => strContains "rm -rf /" d) = true
    ∧ bashExecute (fun _ => BashOutcome.completed 0 "" "") (some "rm -rf /") "." 30
        = (ToolResult.fail "Comando potencialmente perigoso bloqueado", []) :=
  ⟨by decide,
   bash_denylist_blocks (fun _ => BashOutcome.completed 0 "" "") "rm -rf /" "." 30 (by decide)⟩

/-- C9 (code bug): the source counts a rename as successful with
`if "" in result:`, and the empty string is a substring of every log line,
so *every* well-formed rename operation increments `successful_ops` —
including one whose file is missing (the internal error string) or whose
old name is never found.  An unsupported `move` is indeed reported as
not-implemented without erroring the batch, but overall `success` equals
"at least one well-formed rename operation was present", not "at least one
operation actually succeeded": a single rename of a nonexistent file
yields `success=true` with `successful_operations=1`. -/
theorem refactor_success_counting_bug :
    (∀ core fs file old new,
      (refactorOne core fs (RefactorOp.mk "rename" file (some old) (some new))).2.2 = 1)
    ∧ (∀ core fs file o n,
      refactorOne core fs (RefactorOp.mk "move" file o n)
        = (fs, "Operacao move nao implementada ainda", 0))
    ∧ (∀ core fs ops,
      (refactorExecute core fs ops).1.success
        = decide (0 < (ops.map refactorIncr).sum))
    ∧ (∀ core,
      (refactorExecute core ⟨[], []⟩
        [RefactorOp.mk "rename" "ghost.py" (some "a") (some "b")]).1.success = true
      ∧ (refactorExecute core ⟨[], []⟩
          [RefactorOp.mk "rename" "ghost.py" (some "a") (some "b")]).1.metaInt
            "successful_operations" = some 1
      ∧ (refactorExecute core ⟨[], []⟩
          [RefactorOp.mk "rename" "ghost.py" (some "a") (some "b")]).2 = ⟨[], []⟩) := by
  refine ⟨?_, ?_, ?_, ?_⟩
  · intro core fs file old new
    rw [refactorOne_snd]
    rfl
  · intro core fs file o n
    cases o <;> cases n <;> rfl
  · intro core fs ops
    show decide (0 < (ops.foldl (refactorStep core) (fs, [], 0)).2.2) = _
    rw [refactor_foldl_count core ops fs [] 0]
    simp
  · intro core
    exact ⟨rfl, rfl, rfl⟩

/-- C10 counterexample: a confirmed `EDIT_FILE` directive whose path
`notes.txt` does not exist does *not* create the file — the underlying
write fails on the bare filename — refuting "for every EDIT_FILE directive
whose path does not exist the confirmed action creates the file rather
than failing". -/
theorem edit_file_bare_path_counterexample :
    ((handleEditFile ⟨[], []⟩ (some "notes.txt") "new body" "s").1.map (fun r => r.success))
        = some false
    ∧ (handleEditFile ⟨[], []⟩ (some "notes.txt") "new body" "s").2.readFile "notes.txt"
        = Option.none :=
  ⟨by decide, by decide⟩

/-- C10 (amended): a confirmed `EDIT_FILE` directive invokes the `write`
tool with the directive's full `new_content` and no existence or
old-content check — the whole target file is replaced, and a nonexistent
path is created — for every path with a nonempty unblocked directory
component; a path that is a bare filename makes the underlying write fail
(no file is created).  A negative confirmation performs no action. -/
theorem edit_file_directive_amended (fs : FS) (path : Option String)
    (new_content confirm : String) :
    (pyLower confirm ≠ "s" →
      handleEditFile fs path new_content confirm = (Option.none, fs))
    ∧ (∀ p, pyLower confirm = "s" → path = some p →
        handleEditFile fs path new_content confirm
          = (some (writeExecute fs p new_content).1, (writeExecute fs p new_content).2))
    ∧ (∀ p, pyLower confirm = "s" → path = some p →
        dirnameStr p ≠ "" →
        (∀ q ∈ pathPrefixes (dirnameStr p), fs.isFile q = false) →
        fs.isDir p = false → p ∉ pathPrefixes (dirnameStr p) →
        ((handleEditFile fs path new_content confirm).1.map (fun r => r.success)) = some true
        ∧ (handleEditFile fs path new_content confirm).2.readFile p = some new_content)
    ∧ (∀ p, pyLower confirm = "s" → path = some p → dirnameStr p = "" →
        ((handleEditFile fs path new_content confirm).1.map (fun r => r.success)) = some false
        ∧ (handleEditFile fs path new_content confirm).2 = fs) := by
  refine ⟨?_, ?_, ?_, ?_⟩
  · intro h
    unfold handleEditFile
    rw [if_neg h]
  · intro p hconf hpath
    subst hpath
    unfold handleEditFile
    rw [if_pos hconf]
    rfl
  · intro p hconf hpath h1 h2 h3 h4
    subst hpath
    have hw := writeExecute_ok fs p new_content h1 h2 h3 h4
    unfold handleEditFile
    rw [if_pos hconf]
    refine ⟨?_, ?_⟩
    · show some (writeExecute fs p new_content).1.success = some true
      rw [hw.1]
    · show (writeExecute fs p new_content).2.readFile p = some new_content
      exact hw.2.1
  · intro p hconf hpath h1
    subst hpath
    have hmk : makedirs fs (dirnameStr p)
        = Except.error "No such file or directory: empty path" := by
      rw [h1]; rfl
    have hw := writeExecute_err fs p new_content _ hmk
    unfold handleEditFile
    rw [if_pos hconf]
    constructor
    · show some (writeExecute fs p new_content).1.success = some false
      rw [hw]
      rfl
    · show (writeExecute fs p new_content).2 = fs
      rw [hw]

/-- Witness for C10 (amended): with confirmation `"S"` the directive on
the nonexistent `d/n.txt` creates the file with the directive's content,
while the bare `notes.txt` fails and changes nothing. -/
theorem edit_file_directive_amended_witness :
    ((handleEditFile ⟨[], []⟩ (some "d/n.txt") "body" "S").1.map (fun r => r.success))
        = some true
    ∧ (handleEditFile ⟨[], []⟩ (some "d/n.txt") "body" "S").2.readFile "d/n.txt" = some "body"
    ∧ ((handleEditFile ⟨[], []⟩ (some "notes.txt") "body" "s").1.map (fun r => r.success))
        = some false
    ∧ (handleEditFile ⟨[], []⟩ (some "notes.txt") "body" "s").2 = ⟨[], []⟩
    ∧ handleEditFile ⟨[("a.txt", "x")], []⟩ (some "a.txt") "body" "n"
        = (Option.none, ⟨[("a.txt", "x")], []⟩) := by
  have hok := (edit_file_directive_amended ⟨[], []⟩ (some "d/n.txt") "body" "S").2.2.1
    "d/n.txt" (by decide) rfl (by decide) (by decide) (by decide) (by decide)
  have hbare := (edit_file_directive_amended ⟨[], []⟩ (some "notes.txt") "body" "s").2.2.2
    "notes.txt" (by decide) rfl (by decide)
  have hno := (edit_file_directive_amended ⟨[("a.txt", "x")], []⟩ (some "a.txt") "body" "n").1
    (by decide)
  exact ⟨hok.1, hok.2, hbare.1, hbare.2, hno⟩

end GeminiCoder
